import Mathlib

/-!
Shallow embedding of `src/app/snapshot.py` from the ads-copilot-agent
repository: the snapshot builder that runs four detectors over advertising
performance data, aggregates and sorts their findings, and falls back to a
static demo report when credentials are missing or any step fails.

Numeric fields of the Python code (floats) are modelled as `ℚ`; `Optional`
numeric fields as `Option ℚ`, with Python truthiness (`None` and `0.0` are
falsy) made explicit where the code relies on it.  Fallible code (provider
calls, `dict` key lookups) is modelled with `Except`.
-/

namespace AdsSnapshot

/-- Values that can appear in an `Issue.metadata` mapping or in a free-form
policy-issue record (Python `dict` values used by this file: strings,
numbers, integer counts, lists of strings). -/
inductive MetaValue where
  | str (s : String)
  | num (q : ℚ)
  | int (n : ℤ)
  | strList (l : List String)
  deriving DecidableEq, Repr

/-- A Python `dict` with string keys, as an association list; the code only
reads keys via indexing/`get`, modelled with `List.lookup`. -/
abbrev Record := List (String × MetaValue)

/-- Model of `app.models.Summary` (module not in the repo snapshot; fields as
constructed in `build_snapshot`/`build_demo_snapshot` and described by the
spec §3: `average_cpa` and `roas` may be undefined). -/
structure Summary where
  date_range : String
  total_spend : ℚ
  total_conversions : ℚ
  average_cpa : Option ℚ
  roas : Option ℚ
  currency : String
  deriving DecidableEq, Repr

/-- Model of `app.models.Issue`. -/
structure Issue where
  type : String
  severity : String
  description : String
  metadata : Record
  deriving DecidableEq, Repr

/-- Model of `app.models.RecommendedAction`. -/
structure RecommendedAction where
  action_type : String
  description : String
  priority : String
  related_issue_type : String
  deriving DecidableEq, Repr

/-- Model of `app.models.SnapshotResponse`. -/
structure SnapshotResponse where
  summary : Summary
  top_issues : List Issue
  recommended_actions : List RecommendedAction
  deriving DecidableEq, Repr

/-- Model of `app.models.CampaignKPI` as used by `analyze_campaigns`:
`cpa` is optional (guarded by truthiness in the code). -/
structure CampaignKPI where
  campaign_id : String
  campaign_name : String
  spend : ℚ
  conversions : ℚ
  cpa : Option ℚ
  deriving DecidableEq, Repr

/-- Model of `app.models.SearchTermData` as used by `analyze_search_terms`:
`conversion_rate` is optional (guarded by truthiness in the code). -/
structure SearchTermData where
  search_term : String
  cost : ℚ
  clicks : ℤ
  conversions : ℚ
  conversion_rate : Option ℚ
  deriving DecidableEq, Repr

/-- Model of `app.models.DisapprovedProduct` as used by `analyze_disapproved_products`. -/
structure DisapprovedProduct where
  product_id : String
  title : String
  issues : List String
  deriving DecidableEq, Repr

/-- The account-level KPI mapping returned by `ads_get_account_kpis`
(provider contract of spec §6; `average_cpa`/`roas` may be undefined). -/
structure AccountKpis where
  total_spend : ℚ
  total_conversions : ℚ
  average_cpa : Option ℚ
  roas : Option ℚ
  currency : String
  deriving DecidableEq, Repr

/-- Errors of the embedded fallible operations: a failing provider call, or
a Python `KeyError` from indexing a `dict` with a missing key. -/
inductive PyError where
  | providerError (msg : String)
  | keyError (key : String)
  deriving DecidableEq, Repr

/-- Python truthiness of an optional number: `None` and `0.0` are falsy. -/
def qTruthy : Option ℚ → Bool
  | none => false
  | some q => q != 0

/-- Python truthiness of an optional string: `None` and `""` are falsy. -/
def strTruthy : Option String → Bool
  | none => false
  | some s => !s.isEmpty

/-- A single-quote character as a string (used inside description texts). -/
def sq : String := String.singleton (Char.ofNat 39)

/-- Stand-in for Python two-decimal float formatting in description strings
(`fmt2 q` for the format `:.2f` applied to `q` inside an f-string); the
exact rendered digits are irrelevant to every property proved below. -/
def fmt2 (q : ℚ) : String := toString q.num ++ "/" ++ toString q.den

/-- Rendering of a metadata value inside an f-string (Python `str()`). -/
def MetaValue.render : MetaValue → String
  | .str s => s
  | .num q => fmt2 q
  | .int n => toString n
  | .strList l => String.intercalate ", " l

/-! ### ProductFeedDetector: `analyze_disapproved_products` (lines 183-215) -/

/-- The `Issue` built for one disapproved product: type `disapproved_product`,
severity `high`; the description narrates only the first reason when the
reason list is non-empty. -/
def productIssue (p : DisapprovedProduct) : Issue :=
  let base := "Product " ++ sq ++ p.title ++ sq ++ " (ID: " ++ p.product_id ++
    ") is disapproved"
  { type := "disapproved_product"
    severity := "high"
    description := match p.issues with
      | [] => base
      | i :: _ => base ++ ": " ++ i
    metadata := [("product_id", .str p.product_id),
                 ("product_title", .str p.title),
                 ("issues", .strList p.issues)] }

/-- The `RecommendedAction` paired with `productIssue`. -/
def productAction (p : DisapprovedProduct) : RecommendedAction :=
  { action_type := "fix_product_feed"
    description := "Fix product data for " ++ sq ++ p.title ++ sq ++
      " and request a review in Merchant Center"
    priority := "high"
    related_issue_type := "disapproved_product" }

/-- The `for product in ...` loop body: one issue and one recommendation are
appended per product, in input order. -/
def productLoop : List DisapprovedProduct → List Issue × List RecommendedAction
  | [] => ([], [])
  | p :: rest =>
    let r := productLoop rest
    (productIssue p :: r.1, productAction p :: r.2)

/-- Embedding of `analyze_disapproved_products`: iterates over `disapproved_products[:10]`. -/
def analyze_disapproved_products (disapproved_products : List DisapprovedProduct) :
    List Issue × List RecommendedAction :=
  productLoop (disapproved_products.take 10)

/-! ### CampaignPerformanceDetector: `analyze_campaigns` (lines 218-273) -/

/-- Issue of rule 1 (zero conversions, spend over 50). -/
def zeroConvIssue (c : CampaignKPI) : Issue :=
  { type := "zero_conversion_campaign"
    severity := "high"
    description := "Campaign " ++ sq ++ c.campaign_name ++ sq ++ " spent $" ++
      fmt2 c.spend ++ " with 0 conversions"
    metadata := [("campaign_id", .str c.campaign_id),
                 ("campaign_name", .str c.campaign_name),
                 ("spend", .num c.spend),
                 ("conversions", .num c.conversions)] }

/-- Action paired with `zeroConvIssue`. -/
def zeroConvAction (c : CampaignKPI) : RecommendedAction :=
  { action_type := "optimize_campaign"
    description := "Review and optimize campaign " ++ sq ++ c.campaign_name ++ sq ++
      " or pause it to prevent budget waste"
    priority := "high"
    related_issue_type := "zero_conversion_campaign" }

/-- Issue of rule 2 (campaign CPA more than twice the account average). -/
def highCpaIssue (c : CampaignKPI) (cp av : ℚ) : Issue :=
  { type := "high_cpa_campaign"
    severity := "medium"
    description := "Campaign " ++ sq ++ c.campaign_name ++ sq ++ " has CPA of $" ++
      fmt2 cp ++ ", 2x higher than account average"
    metadata := [("campaign_id", .str c.campaign_id),
                 ("campaign_name", .str c.campaign_name),
                 ("cpa", .num cp),
                 ("account_avg_cpa", .num av)] }

/-- Action paired with `highCpaIssue`. -/
def highCpaAction (c : CampaignKPI) : RecommendedAction :=
  { action_type := "optimize_campaign"
    description := "Optimize targeting or ad copy for campaign " ++ sq ++
      c.campaign_name ++ sq ++ " to reduce CPA"
    priority := "medium"
    related_issue_type := "high_cpa_campaign" }

/-- The findings one campaign contributes.  Rule 1 is the `if`, rule 2 the
`elif`; the `elif` guard `campaign.cpa and avg_account_cpa and campaign.cpa >
avg_account_cpa * 2` uses Python truthiness, so both CPAs must be present and
nonzero. -/
def campaignStep (avg_account_cpa : Option ℚ) (c : CampaignKPI) :
    List Issue × List RecommendedAction :=
  if c.conversions = 0 ∧ c.spend > 50 then
    ([zeroConvIssue c], [zeroConvAction c])
  else
    match c.cpa, avg_account_cpa with
    | some cp, some av =>
      if cp ≠ 0 ∧ av ≠ 0 ∧ cp > av * 2 then
        ([highCpaIssue c cp av], [highCpaAction c])
      else ([], [])
    | _, _ => ([], [])

/-- The `for campaign in campaign_kpis` loop (no truncation). -/
def campaignLoop (avg : Option ℚ) : List CampaignKPI → List Issue × List RecommendedAction
  | [] => ([], [])
  | c :: rest =>
    let s := campaignStep avg c
    let r := campaignLoop avg rest
    (s.1 ++ r.1, s.2 ++ r.2)

/-- Embedding of `analyze_campaigns`: `avg_account_cpa = account_kpis.get("average_cpa")`. -/
def analyze_campaigns (campaign_kpis : List CampaignKPI) (account_kpis : AccountKpis) :
    List Issue × List RecommendedAction :=
  campaignLoop account_kpis.average_cpa campaign_kpis

/-! ### SearchTermDetector: `analyze_search_terms` (lines 276-327) -/

/-- Issue of rule 1 (cost over 20 with zero conversions). -/
def wastefulIssue (t : SearchTermData) : Issue :=
  { type := "wasteful_search_term"
    severity := "medium"
    description := "Search term " ++ sq ++ t.search_term ++ sq ++ " spent $" ++
      fmt2 t.cost ++ " with 0 conversions"
    metadata := [("search_term", .str t.search_term),
                 ("cost", .num t.cost),
                 ("clicks", .int t.clicks),
                 ("conversions", .num t.conversions)] }

/-- Action paired with `wastefulIssue`. -/
def wastefulAction (t : SearchTermData) : RecommendedAction :=
  { action_type := "add_negative_keyword"
    description := "Add " ++ sq ++ t.search_term ++ sq ++
      " as a negative keyword to prevent budget waste"
    priority := "medium"
    related_issue_type := "wasteful_search_term" }

/-- Issue of rule 2 (low conversion rate with cost over 50); `rate` is the
(truthy) value of `t.conversion_rate`. -/
def lowConvIssue (t : SearchTermData) (rate : ℚ) : Issue :=
  { type := "low_conversion_search_term"
    severity := "low"
    description := "Search term " ++ sq ++ t.search_term ++ sq ++
      " has low conversion rate (" ++ fmt2 rate ++ "%) with $" ++ fmt2 t.cost ++ " spend"
    metadata := [("search_term", .str t.search_term),
                 ("cost", .num t.cost),
                 ("conversion_rate", .num rate)] }

/-- Action paired with `lowConvIssue`. -/
def lowConvAction (t : SearchTermData) : RecommendedAction :=
  { action_type := "review_search_term"
    description := "Review search term " ++ sq ++ t.search_term ++ sq ++
      " and consider adding as negative or adjusting match type"
    priority := "low"
    related_issue_type := "low_conversion_search_term" }

/-- The findings one search term contributes.  Rule 1 is the `if`, rule 2 the
`elif`; the `elif` guard `term.conversion_rate and term.conversion_rate < 1.0
and term.cost > 50` uses Python truthiness, so the rate must be present and
nonzero. -/
def searchTermStep (t : SearchTermData) : List Issue × List RecommendedAction :=
  if t.conversions = 0 ∧ t.cost > 20 then
    ([wastefulIssue t], [wastefulAction t])
  else
    match t.conversion_rate with
    | some rate =>
      if rate ≠ 0 ∧ rate < 1 ∧ t.cost > 50 then
        ([lowConvIssue t rate], [lowConvAction t])
      else ([], [])
    | none => ([], [])

/-- The `for term in search_terms[:15]` loop body. -/
def searchTermLoop : List SearchTermData → List Issue × List RecommendedAction
  | [] => ([], [])
  | t :: rest =>
    let s := searchTermStep t
    let r := searchTermLoop rest
    (s.1 ++ r.1, s.2 ++ r.2)

/-- Embedding of `analyze_search_terms`: iterates over `search_terms[:15]`. -/
def analyze_search_terms (search_terms : List SearchTermData) :
    List Issue × List RecommendedAction :=
  searchTermLoop (search_terms.take 15)

/-! ### PolicyComplianceDetector: `analyze_policy_issues` (lines 330-354) -/

/-- Python `dict` indexing `r[k]`: raises `KeyError` when the key is absent. -/
def getKey (r : Record) (k : String) : Except PyError MetaValue :=
  match r.lookup k with
  | some v => Except.ok v
  | none => Except.error (PyError.keyError k)

/-- The findings one policy record contributes: unconditional issue/action of
type `policy_limited_ad`/`fix_policy_issue`, the entire record copied into
metadata; fails with a `KeyError` if `ad_name`, `campaign_name` or
`approval_status` is missing. -/
def policyFindings (r : Record) : Except PyError (Issue × RecommendedAction) := do
  let adName ← getKey r "ad_name"
  let campaignName ← getKey r "campaign_name"
  let approvalStatus ← getKey r "approval_status"
  let issue : Issue :=
    { type := "policy_limited_ad"
      severity := "medium"
      description := "Ad " ++ sq ++ adName.render ++ sq ++ " in campaign " ++ sq ++
        campaignName.render ++ sq ++ " has approval status: " ++ approvalStatus.render
      metadata := r }
  let act : RecommendedAction :=
    { action_type := "fix_policy_issue"
      description := "Review and modify ad " ++ sq ++ adName.render ++ sq ++
        " to comply with Google Ads policies"
      priority := "medium"
      related_issue_type := "policy_limited_ad" }
  pure (issue, act)

/-- The `for policy_issue in ...` loop body; a `KeyError` propagates. -/
def policyLoop : List Record → Except PyError (List Issue × List RecommendedAction)
  | [] => pure ([], [])
  | r :: rest => do
    let (i, a) ← policyFindings r
    let (is, acts) ← policyLoop rest
    pure (i :: is, a :: acts)

/-- Embedding of `analyze_policy_issues`: iterates over `policy_issues[:10]`. -/
def analyze_policy_issues (policy_issues : List Record) :
    Except PyError (List Issue × List RecommendedAction) :=
  policyLoop (policy_issues.take 10)

/-! ### Aggregation & sorting (`build_snapshot` lines 58-94) -/

/-- Embedding of `severity_order.get(x.severity, 3)` with
`severity_order = dict high 0, medium 1, low 2`. -/
def severityRank (i : Issue) : ℕ :=
  if i.severity = "high" then 0
  else if i.severity = "medium" then 1
  else if i.severity = "low" then 2
  else 3

/-- Embedding of `priority_order.get(x.priority, 3)` with
`priority_order = dict high 0, medium 1, low 2`. -/
def priorityRank (a : RecommendedAction) : ℕ :=
  if a.priority = "high" then 0
  else if a.priority = "medium" then 1
  else if a.priority = "low" then 2
  else 3

/-- Embedding of `issues.sort(key=lambda x: severity_order.get(x.severity, 3))`: Python
`list.sort` is a stable sort by the key, modelled by stable insertion sort. -/
def sortIssues (l : List Issue) : List Issue :=
  List.insertionSort (fun a b => severityRank a ≤ severityRank b) l

/-- Embedding of `recommendations.sort(key=lambda x: priority_order.get(x.priority, 3))`. -/
def sortActions (l : List RecommendedAction) : List RecommendedAction :=
  List.insertionSort (fun a b => priorityRank a ≤ priorityRank b) l

/-- The detector-plus-aggregation pipeline of the live path of
`build_snapshot`: runs the four detectors in source order (products,
campaigns, search terms, policy), concatenates their outputs in that order,
and applies the two sorts; a policy-detector `KeyError` propagates. -/
def livePipeline (account_kpis : AccountKpis) (campaign_kpis : List CampaignKPI)
    (search_terms : List SearchTermData) (policy_issues : List Record)
    (disapproved_products : List DisapprovedProduct) :
    Except PyError (List Issue × List RecommendedAction) := do
  let fromProducts := analyze_disapproved_products disapproved_products
  let fromCampaigns := analyze_campaigns campaign_kpis account_kpis
  let fromSearchTerms := analyze_search_terms search_terms
  let fromPolicy ← analyze_policy_issues policy_issues
  let issues := fromProducts.1 ++ fromCampaigns.1 ++ fromSearchTerms.1 ++ fromPolicy.1
  let recommendations := fromProducts.2 ++ fromCampaigns.2 ++ fromSearchTerms.2 ++ fromPolicy.2
  pure (sortIssues issues, sortActions recommendations)

/-! ### Orchestrator (`build_snapshot` lines 23-98) and fallback (101-180) -/

/-- Modelled from the spec: the `config` module is not part of the repository
snapshot; the only setting `build_snapshot` reads is
`settings.google_ads_developer_token`, whose Python truthiness (`None`/empty
means no credentials) gates demo mode. -/
structure Settings where
  google_ads_developer_token : Option String

/-- Modelled from the spec: the `app.google_ads` and `app.merchant_center`
provider modules are not part of the repository snapshot; each provider call
may fail (spec §6), modelled as an `Except`-valued field of an environment
record passed to the orchestrator. -/
structure Env where
  ads_get_account_kpis : String → String → Except PyError AccountKpis
  ads_get_campaign_kpis : String → String → Except PyError (List CampaignKPI)
  ads_get_search_terms : String → String → ℚ → Except PyError (List SearchTermData)
  ads_get_policy_issues : String → Except PyError (List Record)
  mc_get_disapproved_products : Except PyError (List DisapprovedProduct)

/-- Embedding of `build_demo_snapshot` (lines 101-180): the static fallback report.  Every
field is a literal constant except `summary.date_range`, which copies the
argument; `customer_id` is never read. -/
def build_demo_snapshot (customer_id : String) (date_range : String) : SnapshotResponse :=
  { summary :=
      { date_range := date_range
        total_spend := 1250.50
        total_conversions := 45.0
        average_cpa := some 27.79
        roas := some 3.2
        currency := "USD" }
    top_issues :=
      [{ type := "disapproved_product"
         severity := "high"
         description := "Product " ++ sq ++ "Premium Wireless Headphones" ++ sq ++
           " (ID: 5521) is disapproved: Invalid GTIN"
         metadata := [("product_id", .str "5521"),
                      ("product_title", .str "Premium Wireless Headphones"),
                      ("issues", .strList ["Invalid GTIN"])] },
       { type := "zero_conversion_campaign"
         severity := "high"
         description := "Campaign " ++ sq ++ "Display - Retargeting" ++ sq ++
           " spent $150.00 with 0 conversions"
         metadata := [("campaign_id", .str "998877"),
                      ("campaign_name", .str "Display - Retargeting"),
                      ("spend", .num 150.00),
                      ("conversions", .int 0)] },
       { type := "wasteful_search_term"
         severity := "medium"
         description := "Search term " ++ sq ++ "free headphones" ++ sq ++
           " spent $45.20 with 0 conversions"
         metadata := [("search_term", .str "free headphones"),
                      ("cost", .num 45.20),
                      ("clicks", .int 32),
                      ("conversions", .int 0)] }]
    recommended_actions :=
      [{ action_type := "fix_product_feed"
         description := "Fix product data for " ++ sq ++ "Premium Wireless Headphones" ++
           sq ++ " and request a review in Merchant Center"
         priority := "high"
         related_issue_type := "disapproved_product" },
       { action_type := "optimize_campaign"
         description := "Review and optimize campaign " ++ sq ++ "Display - Retargeting" ++
           sq ++ " or pause it to prevent budget waste"
         priority := "high"
         related_issue_type := "zero_conversion_campaign" },
       { action_type := "add_negative_keyword"
         description := "Add " ++ sq ++ "free headphones" ++ sq ++
           " as a negative keyword to prevent budget waste"
         priority := "medium"
         related_issue_type := "wasteful_search_term" }] }

/-- The protected region of `build_snapshot` (the `try` block, lines 38-94):
the five provider calls in source order, the summary built from the account
KPIs, then the detector-plus-aggregation pipeline.  Any error short-circuits. -/
def liveSnapshot (env : Env) (customer_id date_range : String) :
    Except PyError SnapshotResponse := do
  let account_kpis ← env.ads_get_account_kpis customer_id date_range
  let campaign_kpis ← env.ads_get_campaign_kpis customer_id date_range
  let search_terms ← env.ads_get_search_terms customer_id date_range 10.0
  let policy_issues ← env.ads_get_policy_issues customer_id
  let disapproved_products ← env.mc_get_disapproved_products
  let summary : Summary :=
    { date_range := date_range
      total_spend := account_kpis.total_spend
      total_conversions := account_kpis.total_conversions
      average_cpa := account_kpis.average_cpa
      roas := account_kpis.roas
      currency := account_kpis.currency }
  let result ← livePipeline account_kpis campaign_kpis search_terms policy_issues
    disapproved_products
  pure { summary := summary
         top_issues := result.1
         recommended_actions := result.2 }

/-- Embedding of `build_snapshot` (lines 23-98): demo mode when no developer token is
configured; otherwise the live path, with any raised error caught by the
`except Exception` handler and degraded to the fallback report. -/
def build_snapshot (settings : Settings) (env : Env)
    (customer_id : String) (date_range : String) : SnapshotResponse :=
  if strTruthy settings.google_ads_developer_token = false then
    build_demo_snapshot customer_id date_range
  else
    match liveSnapshot env customer_id date_range with
    | .ok resp => resp
    | .error _ => build_demo_snapshot customer_id date_range

/-! ### Helper lemmas: loop characterizations -/

theorem productLoop_eq (l : List DisapprovedProduct) :
    productLoop l = (l.map productIssue, l.map productAction) := by
  induction l with
  | nil => rfl
  | cons p rest ih => simp [productLoop, ih]

theorem campaignLoop_eq (avg : Option ℚ) (l : List CampaignKPI) :
    campaignLoop avg l =
      (l.flatMap (fun c => (campaignStep avg c).1),
       l.flatMap (fun c => (campaignStep avg c).2)) := by
  induction l with
  | nil => rfl
  | cons c rest ih => simp [campaignLoop, ih]

theorem searchTermLoop_eq (l : List SearchTermData) :
    searchTermLoop l =
      (l.flatMap (fun t => (searchTermStep t).1),
       l.flatMap (fun t => (searchTermStep t).2)) := by
  induction l with
  | nil => rfl
  | cons t rest ih => simp [searchTermLoop, ih]

/-! ### Claims -/

/-- C5: `analyze_disapproved_products` processes at most the first 10 input
entries in order: its issues and actions are exactly the image of the first
10 products, each issue has type `disapproved_product` and severity `high`,
an input of 12 products yields exactly 10 issues, and an empty input yields
empty outputs. -/
theorem analyze_disapproved_products_truncation (l : List DisapprovedProduct) :
    (analyze_disapproved_products l).1 = (l.take 10).map productIssue ∧
    (analyze_disapproved_products l).2 = (l.take 10).map productAction ∧
    (analyze_disapproved_products l).1.length = min 10 l.length ∧
    (l.length = 12 → (analyze_disapproved_products l).1.length = 10) ∧
    (∀ i ∈ (analyze_disapproved_products l).1,
      i.type = "disapproved_product" ∧ i.severity = "high") ∧
    analyze_disapproved_products [] = ([], []) := by
  have h := productLoop_eq (l.take 10)
  refine ⟨by simp [analyze_disapproved_products, h], by simp [analyze_disapproved_products, h],
    ?_, ?_, ?_, rfl⟩
  · simp [analyze_disapproved_products, h]
  · intro h12
    simp [analyze_disapproved_products, h, h12]
  · intro i hi
    simp only [analyze_disapproved_products, h, List.mem_map] at hi
    obtain ⟨p, _, rfl⟩ := hi
    exact ⟨rfl, rfl⟩

/-- A 12-product input used to witness the truncation claim. -/
def twelveProducts : List DisapprovedProduct :=
  (List.range 12).map (fun n =>
    { product_id := toString n, title := "Product " ++ toString n, issues := [] })

theorem analyze_disapproved_products_truncation_witness :
    twelveProducts.length = 12 ∧
    (analyze_disapproved_products twelveProducts).1.length = 10 :=
  ⟨by decide, (analyze_disapproved_products_truncation twelveProducts).2.2.2.1 (by decide)⟩

/-- C2: a campaign with zero conversions and spend above 50 triggers rule 1
and only rule 1: `campaignStep` yields exactly one issue
(`zero_conversion_campaign`, severity high) paired with one
`optimize_campaign` action of priority high, never a `high_cpa_campaign`
issue, whatever CPA the campaign has; in `analyze_campaigns` the campaign
contributes exactly that one finding. -/
theorem analyze_campaigns_zero_conversion_exclusive
    (acc : AccountKpis) (c : CampaignKPI) (rest : List CampaignKPI)
    (hconv : c.conversions = 0) (hspend : c.spend > 50) :
    campaignStep acc.average_cpa c = ([zeroConvIssue c], [zeroConvAction c]) ∧
    (analyze_campaigns (c :: rest) acc).1 =
      zeroConvIssue c :: (analyze_campaigns rest acc).1 ∧
    (analyze_campaigns (c :: rest) acc).2 =
      zeroConvAction c :: (analyze_campaigns rest acc).2 ∧
    (zeroConvIssue c).type = "zero_conversion_campaign" ∧
    (zeroConvIssue c).severity = "high" ∧
    (zeroConvIssue c).type ≠ "high_cpa_campaign" ∧
    (zeroConvAction c).action_type = "optimize_campaign" ∧
    (zeroConvAction c).priority = "high" := by
  have hstep : campaignStep acc.average_cpa c = ([zeroConvIssue c], [zeroConvAction c]) := by
    simp [campaignStep, hconv, hspend]
  refine ⟨hstep, ?_, ?_, rfl, rfl, by simp [zeroConvIssue], rfl, rfl⟩
  · simp [analyze_campaigns, campaignLoop, hstep]
  · simp [analyze_campaigns, campaignLoop, hstep]

/-- A zero-conversion campaign whose CPA is far above the account average:
only rule 1 may fire. -/
def wastedCampaign : CampaignKPI :=
  { campaign_id := "42", campaign_name := "Brand", spend := 51,
    conversions := 0, cpa := some 1000 }

/-- Account KPIs with a small defined average CPA. -/
def accountWithAvg : AccountKpis :=
  { total_spend := 500, total_conversions := 20, average_cpa := some 10,
    roas := some 2, currency := "USD" }

theorem analyze_campaigns_zero_conversion_exclusive_witness :
    campaignStep accountWithAvg.average_cpa wastedCampaign =
      ([zeroConvIssue wastedCampaign], [zeroConvAction wastedCampaign]) ∧
    (analyze_campaigns [wastedCampaign] accountWithAvg).1 = [zeroConvIssue wastedCampaign] :=
  ⟨(analyze_campaigns_zero_conversion_exclusive accountWithAvg wastedCampaign []
      (by decide) (by decide)).1,
   by
    have h := (analyze_campaigns_zero_conversion_exclusive accountWithAvg wastedCampaign []
      (by decide) (by decide)).2.1
    simpa [analyze_campaigns, campaignLoop] using h⟩

/-- C10: the fallback report never depends on `customer_id`; the only input
it reflects is `date_range`, copied into `summary.date_range`, while every
other field of the report is the same fixed constant whatever the
arguments. -/
theorem build_demo_snapshot_ignores_customer_id :
    (∀ c₁ c₂ d, build_demo_snapshot c₁ d = build_demo_snapshot c₂ d) ∧
    (∀ c d, (build_demo_snapshot c d).summary.date_range = d) ∧
    (∀ c₁ d₁ c₂ d₂,
      (build_demo_snapshot c₁ d₁).top_issues = (build_demo_snapshot c₂ d₂).top_issues ∧
      (build_demo_snapshot c₁ d₁).recommended_actions =
        (build_demo_snapshot c₂ d₂).recommended_actions ∧
      (build_demo_snapshot c₁ d₁).summary.total_spend =
        (build_demo_snapshot c₂ d₂).summary.total_spend ∧
      (build_demo_snapshot c₁ d₁).summary.total_conversions =
        (build_demo_snapshot c₂ d₂).summary.total_conversions ∧
      (build_demo_snapshot c₁ d₁).summary.average_cpa =
        (build_demo_snapshot c₂ d₂).summary.average_cpa ∧
      (build_demo_snapshot c₁ d₁).summary.roas =
        (build_demo_snapshot c₂ d₂).summary.roas ∧
      (build_demo_snapshot c₁ d₁).summary.currency =
        (build_demo_snapshot c₂ d₂).summary.currency) :=
  ⟨fun _ _ _ => rfl, fun _ _ => rfl,
   fun _ _ _ _ => ⟨rfl, rfl, rfl, rfl, rfl, rfl, rfl⟩⟩

/-- C8: with no credentials configured (falsy developer token), even at the
concrete call `build_snapshot "123" "7d"`, the result is the static fallback
report for every provider environment (so no live provider can influence
it), with `summary.total_spend = 1250.50`, `summary.currency = "USD"` and a
first issue of type `disapproved_product`. -/
theorem build_snapshot_demo_mode (tok : Option String)
    (h : strTruthy tok = false) (env : Env) :
    build_snapshot ⟨tok⟩ env "123" "7d" = build_demo_snapshot "123" "7d" ∧
    (build_snapshot ⟨tok⟩ env "123" "7d").summary.total_spend = 1250.50 ∧
    (build_snapshot ⟨tok⟩ env "123" "7d").summary.currency = "USD" ∧
    ((build_snapshot ⟨tok⟩ env "123" "7d").top_issues.head?).map Issue.type =
      some "disapproved_product" := by
  have hb : build_snapshot ⟨tok⟩ env "123" "7d" = build_demo_snapshot "123" "7d" := by
    simp [build_snapshot, h]
  exact ⟨hb, by rw [hb]; rfl, by rw [hb]; rfl, by rw [hb]; rfl⟩

/-- An environment whose every provider call fails; used to witness that
demo mode and the fallback path ignore the providers. -/
def downEnv : Env :=
  { ads_get_account_kpis := fun _ _ => .error (.providerError "down")
    ads_get_campaign_kpis := fun _ _ => .error (.providerError "down")
    ads_get_search_terms := fun _ _ _ => .error (.providerError "down")
    ads_get_policy_issues := fun _ => .error (.providerError "down")
    mc_get_disapproved_products := .error (.providerError "down") }

theorem build_snapshot_demo_mode_witness :
    build_snapshot ⟨none⟩ downEnv "123" "7d" = build_demo_snapshot "123" "7d" ∧
    (build_snapshot ⟨none⟩ downEnv "123" "7d").summary.total_spend = 1250.50 :=
  ⟨(build_snapshot_demo_mode none (by decide) downEnv).1,
   (build_snapshot_demo_mode none (by decide) downEnv).2.1⟩

/-- A search term whose conversion rate is defined but equal to zero, with
cost above 50 and a nonzero conversion count (so rule 1 does not match):
the claim expects a `low_conversion_search_term` finding for it. -/
def zeroRateTerm : SearchTermData :=
  { search_term := "running shoes", cost := 60, clicks := 5,
    conversions := 2, conversion_rate := some 0 }

/-- C4, counterexample: `zeroRateTerm` is processed (it is the first entry),
rule 1 does not match it, its conversion rate is defined, below 1.0, and its
cost exceeds 50 — yet `analyze_search_terms` emits nothing for it, because
the guard `elif term.conversion_rate and ...` in the code treats the defined rate `0.0`
as falsy.  The claim as stated is therefore false. -/
theorem search_term_rule2_zero_rate_cex :
    (¬(zeroRateTerm.conversions = 0 ∧ zeroRateTerm.cost > 20)) ∧
    zeroRateTerm.conversion_rate = some 0 ∧
    (0 : ℚ) < 1 ∧
    zeroRateTerm.cost > 50 ∧
    analyze_search_terms [zeroRateTerm] = ([], []) := by
  refine ⟨by decide, rfl, by norm_num, by decide, ?_⟩
  simp [analyze_search_terms, searchTermLoop, searchTermStep, zeroRateTerm]

/-- C4, amended: for every processed entry (among the first 15) for which
rule 1 did not match and whose conversion_rate is defined *and nonzero*
(Python truthiness), if the rate is below 1.0 and cost exceeds 50 then
`analyze_search_terms` emits a `low_conversion_search_term` issue of
severity low paired with a `review_search_term` action of priority low. -/
theorem analyze_search_terms_low_conversion_rule
    (l : List SearchTermData) (t : SearchTermData) (hmem : t ∈ l.take 15)
    (h1 : ¬(t.conversions = 0 ∧ t.cost > 20))
    (rate : ℚ) (hr : t.conversion_rate = some rate) (hr0 : rate ≠ 0)
    (hlt : rate < 1) (hc : t.cost > 50) :
    lowConvIssue t rate ∈ (analyze_search_terms l).1 ∧
    lowConvAction t ∈ (analyze_search_terms l).2 ∧
    (lowConvIssue t rate).type = "low_conversion_search_term" ∧
    (lowConvIssue t rate).severity = "low" ∧
    (lowConvAction t).action_type = "review_search_term" ∧
    (lowConvAction t).priority = "low" := by
  have hstep : searchTermStep t = ([lowConvIssue t rate], [lowConvAction t]) := by
    simp only [searchTermStep, if_neg h1, hr]
    simp [hr0, hlt, hc]
  have h := searchTermLoop_eq (l.take 15)
  refine ⟨?_, ?_, rfl, rfl, rfl, rfl⟩
  · simp only [analyze_search_terms, h]
    exact List.mem_flatMap_of_mem hmem (by simp [hstep])
  · simp only [analyze_search_terms, h]
    exact List.mem_flatMap_of_mem hmem (by simp [hstep])

/-- A search term with a defined, nonzero, sub-1.0 conversion rate and cost
above 50, not matching rule 1. -/
def slowTerm : SearchTermData :=
  { search_term := "leather boots", cost := 60, clicks := 40,
    conversions := 1, conversion_rate := some (1/2) }

theorem analyze_search_terms_low_conversion_rule_witness :
    lowConvIssue slowTerm (1/2) ∈ (analyze_search_terms [slowTerm]).1 ∧
    (lowConvIssue slowTerm (1/2)).severity = "low" :=
  ⟨(analyze_search_terms_low_conversion_rule [slowTerm] slowTerm (by simp)
      (by decide) (1/2) rfl (by norm_num) (by norm_num) (by decide)).1,
   (analyze_search_terms_low_conversion_rule [slowTerm] slowTerm (by simp)
      (by decide) (1/2) rfl (by norm_num) (by norm_num) (by decide)).2.2.2.1⟩

/-! ### Policy-detector characterization -/

theorem except_bind_ok {ε α β : Type} (a : α) (f : α → Except ε β) :
    (Except.ok a : Except ε α) >>= f = f a := rfl

theorem except_bind_err {ε α β : Type} (e : ε) (f : α → Except ε β) :
    (Except.error e : Except ε α) >>= f = Except.error e := rfl

theorem except_map_ok {ε α β : Type} (f : α → β) (a : α) :
    f <$> (Except.ok a : Except ε α) = Except.ok (f a) := rfl

theorem except_map_err {ε α β : Type} (f : α → β) (e : ε) :
    f <$> (Except.error e : Except ε α) = Except.error e := rfl

theorem except_pure_eq {ε α : Type} (a : α) :
    (pure a : Except ε α) = Except.ok a := rfl

/-- A policy record carries the three keys the detector reads. -/
def hasPolicyKeys (r : Record) : Bool :=
  (r.lookup "ad_name").isSome && (r.lookup "campaign_name").isSome &&
    (r.lookup "approval_status").isSome

/-- Rendering of a looked-up record value (with a dummy default, used only
to characterize `policyFindings` on records that have all keys). -/
def lookupRender (r : Record) (k : String) : String :=
  ((r.lookup k).getD (.str "")).render

/-- The issue `policyFindings` produces for a record with all keys present. -/
def policyIssueOf (r : Record) : Issue :=
  { type := "policy_limited_ad"
    severity := "medium"
    description := "Ad " ++ sq ++ lookupRender r "ad_name" ++ sq ++ " in campaign " ++
      sq ++ lookupRender r "campaign_name" ++ sq ++ " has approval status: " ++
      lookupRender r "approval_status"
    metadata := r }

/-- The action `policyFindings` produces for a record with all keys present. -/
def policyActionOf (r : Record) : RecommendedAction :=
  { action_type := "fix_policy_issue"
    description := "Review and modify ad " ++ sq ++ lookupRender r "ad_name" ++ sq ++
      " to comply with Google Ads policies"
    priority := "medium"
    related_issue_type := "policy_limited_ad" }

theorem policyFindings_ok_val (r : Record) (v : Issue × RecommendedAction)
    (h : policyFindings r = .ok v) : v = (policyIssueOf r, policyActionOf r) := by
  cases h1 : r.lookup "ad_name" with
  | none => simp [policyFindings, getKey, h1, except_bind_err] at h
  | some v1 =>
    cases h2 : r.lookup "campaign_name" with
    | none => simp [policyFindings, getKey, h1, h2, except_bind_ok, except_bind_err] at h
    | some v2 =>
      cases h3 : r.lookup "approval_status" with
      | none =>
        simp [policyFindings, getKey, h1, h2, h3, except_bind_ok, except_bind_err,
          except_map_err] at h
      | some v3 =>
        simp only [policyFindings, getKey, h1, h2, h3, except_bind_ok, except_map_ok,
          except_pure_eq, Except.ok.injEq] at h
        simp [← h, policyIssueOf, policyActionOf, lookupRender, h1, h2, h3]

theorem policyFindings_ok_of_keys (r : Record) (h : hasPolicyKeys r = true) :
    policyFindings r = .ok (policyIssueOf r, policyActionOf r) := by
  simp only [hasPolicyKeys, Bool.and_eq_true, Option.isSome_iff_exists] at h
  obtain ⟨⟨⟨v1, h1⟩, ⟨v2, h2⟩⟩, ⟨v3, h3⟩⟩ := h
  simp only [policyFindings, getKey, h1, h2, h3, except_bind_ok, except_map_ok,
    except_pure_eq, Except.ok.injEq]
  simp [policyIssueOf, policyActionOf, lookupRender, h1, h2, h3]

theorem policyFindings_err (r : Record) (h : hasPolicyKeys r = false) :
    ∃ k, policyFindings r = .error (.keyError k) := by
  cases h1 : r.lookup "ad_name" with
  | none => exact ⟨"ad_name", by simp [policyFindings, getKey, h1, except_bind_err]⟩
  | some v1 =>
    cases h2 : r.lookup "campaign_name" with
    | none =>
      exact ⟨"campaign_name",
        by simp [policyFindings, getKey, h1, h2, except_bind_ok, except_bind_err]⟩
    | some v2 =>
      cases h3 : r.lookup "approval_status" with
      | none =>
        exact ⟨"approval_status",
          by simp [policyFindings, getKey, h1, h2, h3, except_bind_ok, except_map_err]⟩
      | some v3 => simp [hasPolicyKeys, h1, h2, h3] at h

theorem policyLoop_ok_of_keys (l : List Record) (h : ∀ r ∈ l, hasPolicyKeys r = true) :
    policyLoop l = .ok (l.map policyIssueOf, l.map policyActionOf) := by
  induction l with
  | nil => rfl
  | cons r rest ih =>
    have hr := policyFindings_ok_of_keys r (h r (List.mem_cons_self r rest))
    have hrest := ih (fun r' hr' => h r' (List.mem_cons_of_mem r hr'))
    simp [policyLoop, hr, hrest, except_bind_ok, except_pure_eq]

theorem policyLoop_ok_val (l : List Record) (out : List Issue × List RecommendedAction)
    (h : policyLoop l = .ok out) :
    out = (l.map policyIssueOf, l.map policyActionOf) := by
  induction l generalizing out with
  | nil =>
    simp only [policyLoop, except_pure_eq, Except.ok.injEq] at h
    simp [← h]
  | cons r rest ih =>
    cases hf : policyFindings r with
    | error e => simp [policyLoop, hf, except_bind_err] at h
    | ok v =>
      cases hrest : policyLoop rest with
      | error e => simp [policyLoop, hf, hrest, except_bind_ok, except_bind_err] at h
      | ok w =>
        obtain rfl := policyFindings_ok_val r v hf
        obtain rfl := ih w hrest
        simp only [policyLoop, hf, hrest, except_bind_ok, except_pure_eq,
          Except.ok.injEq] at h
        simp [← h]

theorem policyLoop_err (l : List Record) (h : ∃ r ∈ l, hasPolicyKeys r = false) :
    ∃ k, policyLoop l = .error (.keyError k) := by
  induction l with
  | nil => obtain ⟨r, hr, _⟩ := h; cases hr
  | cons r rest ih =>
    cases hk : hasPolicyKeys r with
    | false =>
      obtain ⟨k, hf⟩ := policyFindings_err r hk
      exact ⟨k, by simp [policyLoop, hf, except_bind_err]⟩
    | true =>
      obtain ⟨r', hr', hk'⟩ := h
      rcases List.mem_cons.mp hr' with rfl | hmem
      · rw [hk] at hk'; cases hk'
      · obtain ⟨k, hrest⟩ := ih ⟨r', hmem, hk'⟩
        have hf := policyFindings_ok_of_keys r hk
        exact ⟨k, by simp [policyLoop, hf, hrest, except_bind_ok, except_bind_err]⟩

/-- C6: `analyze_policy_issues` processes at most the first 10 records.  When
every processed record has the keys `ad_name`, `campaign_name` and
`approval_status`, it unconditionally emits, per record and in order, one
`policy_limited_ad` issue of severity `medium` whose metadata is the record
itself, paired with a `fix_policy_issue` action of priority `medium`; when a
processed record lacks one of the three keys it fails with a `KeyError`
instead of skipping the record. -/
theorem analyze_policy_issues_contract (l : List Record) :
    ((∀ r ∈ l.take 10, hasPolicyKeys r = true) →
      analyze_policy_issues l =
        .ok ((l.take 10).map policyIssueOf, (l.take 10).map policyActionOf)) ∧
    ((∃ r ∈ l.take 10, hasPolicyKeys r = false) →
      ∃ k, analyze_policy_issues l = .error (.keyError k)) ∧
    (∀ r, (policyIssueOf r).type = "policy_limited_ad" ∧
      (policyIssueOf r).severity = "medium" ∧
      (policyIssueOf r).metadata = r ∧
      (policyActionOf r).action_type = "fix_policy_issue" ∧
      (policyActionOf r).priority = "medium") :=
  ⟨fun h => policyLoop_ok_of_keys (l.take 10) h,
   fun h => policyLoop_err (l.take 10) h,
   fun _ => ⟨rfl, rfl, rfl, rfl, rfl⟩⟩

/-- A complete policy record. -/
def goodPolicyRecord : Record :=
  [("ad_name", .str "Summer Sale Ad"), ("campaign_name", .str "Search - Brand"),
   ("approval_status", .str "LIMITED")]

/-- A policy record missing `campaign_name` and `approval_status`. -/
def badPolicyRecord : Record := [("ad_name", .str "Orphan Ad")]

theorem analyze_policy_issues_contract_witness :
    analyze_policy_issues [goodPolicyRecord] =
      .ok ([policyIssueOf goodPolicyRecord], [policyActionOf goodPolicyRecord]) ∧
    (∃ k, analyze_policy_issues [badPolicyRecord] = .error (.keyError k)) :=
  ⟨(analyze_policy_issues_contract [goodPolicyRecord]).1 (by decide),
   (analyze_policy_issues_contract [badPolicyRecord]).2.1
     ⟨badPolicyRecord, by simp, by decide⟩⟩

/-! ### Parallel issue/action lists -/

/-- Ordinal parallelism of the two output lists of a detector: same length, and
the action at each position carries the `type` of the issue at the same
position as its `related_issue_type`. -/
def Parallel (issues : List Issue) (acts : List RecommendedAction) : Prop :=
  List.Forall₂ (fun i a => a.related_issue_type = i.type) issues acts

theorem parallel_map {β : Type} (fI : β → Issue) (fA : β → RecommendedAction)
    (h : ∀ b, (fA b).related_issue_type = (fI b).type) (l : List β) :
    Parallel (l.map fI) (l.map fA) := by
  induction l with
  | nil => exact List.Forall₂.nil
  | cons b rest ih => exact List.Forall₂.cons (h b) ih

theorem campaignStep_parallel (avg : Option ℚ) (c : CampaignKPI) :
    Parallel (campaignStep avg c).1 (campaignStep avg c).2 := by
  unfold campaignStep
  by_cases h : c.conversions = 0 ∧ c.spend > 50
  · simp only [if_pos h]
    exact List.Forall₂.cons rfl List.Forall₂.nil
  · simp only [if_neg h]
    cases c.cpa with
    | none => exact List.Forall₂.nil
    | some cp =>
      cases avg with
      | none => exact List.Forall₂.nil
      | some av =>
        by_cases h2 : cp ≠ 0 ∧ av ≠ 0 ∧ cp > av * 2
        · simp only [if_pos h2]
          exact List.Forall₂.cons rfl List.Forall₂.nil
        · simp only [if_neg h2]
          exact List.Forall₂.nil

theorem searchTermStep_parallel (t : SearchTermData) :
    Parallel (searchTermStep t).1 (searchTermStep t).2 := by
  unfold searchTermStep
  by_cases h : t.conversions = 0 ∧ t.cost > 20
  · simp only [if_pos h]
    exact List.Forall₂.cons rfl List.Forall₂.nil
  · simp only [if_neg h]
    cases t.conversion_rate with
    | none => exact List.Forall₂.nil
    | some rate =>
      by_cases h2 : rate ≠ 0 ∧ rate < 1 ∧ t.cost > 50
      · simp only [if_pos h2]
        exact List.Forall₂.cons rfl List.Forall₂.nil
      · simp only [if_neg h2]
        exact List.Forall₂.nil

theorem campaignLoop_parallel (avg : Option ℚ) (l : List CampaignKPI) :
    Parallel (campaignLoop avg l).1 (campaignLoop avg l).2 := by
  induction l with
  | nil => exact List.Forall₂.nil
  | cons c rest ih =>
    simp only [campaignLoop]
    exact List.rel_append (campaignStep_parallel avg c) ih

theorem searchTermLoop_parallel (l : List SearchTermData) :
    Parallel (searchTermLoop l).1 (searchTermLoop l).2 := by
  induction l with
  | nil => exact List.Forall₂.nil
  | cons t rest ih =>
    simp only [searchTermLoop]
    exact List.rel_append (searchTermStep_parallel t) ih

/-- C7: every detector returns ordinally parallel lists — equal length,
with the action at position `i` carrying the `type` of the issue at
position `i` as its `related_issue_type` (for the fallible policy detector,
whenever it returns successfully). -/
theorem detectors_parallel_findings :
    (∀ l : List DisapprovedProduct,
      Parallel (analyze_disapproved_products l).1 (analyze_disapproved_products l).2 ∧
      (analyze_disapproved_products l).1.length = (analyze_disapproved_products l).2.length) ∧
    (∀ (ks : List CampaignKPI) (acc : AccountKpis),
      Parallel (analyze_campaigns ks acc).1 (analyze_campaigns ks acc).2 ∧
      (analyze_campaigns ks acc).1.length = (analyze_campaigns ks acc).2.length) ∧
    (∀ ts : List SearchTermData,
      Parallel (analyze_search_terms ts).1 (analyze_search_terms ts).2 ∧
      (analyze_search_terms ts).1.length = (analyze_search_terms ts).2.length) ∧
    (∀ (ps : List Record) (out : List Issue × List RecommendedAction),
      analyze_policy_issues ps = .ok out →
      Parallel out.1 out.2 ∧ out.1.length = out.2.length) := by
  refine ⟨fun l => ?_, fun ks acc => ?_, fun ts => ?_, fun ps out h => ?_⟩
  · have hp : Parallel (analyze_disapproved_products l).1 (analyze_disapproved_products l).2 := by
      simp only [analyze_disapproved_products, productLoop_eq]
      exact parallel_map productIssue productAction (fun _ => rfl) (l.take 10)
    exact ⟨hp, hp.length_eq⟩
  · have hp := campaignLoop_parallel acc.average_cpa ks
    exact ⟨hp, hp.length_eq⟩
  · have hp := searchTermLoop_parallel (ts.take 15)
    exact ⟨hp, hp.length_eq⟩
  · obtain rfl := policyLoop_ok_val (ps.take 10) out h
    have hp : Parallel ((ps.take 10).map policyIssueOf) ((ps.take 10).map policyActionOf) :=
      parallel_map policyIssueOf policyActionOf (fun _ => rfl) (ps.take 10)
    exact ⟨hp, hp.length_eq⟩

theorem detectors_parallel_findings_witness :
    Parallel [policyIssueOf goodPolicyRecord] [policyActionOf goodPolicyRecord] ∧
    [policyIssueOf goodPolicyRecord].length = [policyActionOf goodPolicyRecord].length :=
  detectors_parallel_findings.2.2.2 [goodPolicyRecord]
    ([policyIssueOf goodPolicyRecord], [policyActionOf goodPolicyRecord])
    (policyLoop_ok_of_keys ([goodPolicyRecord].take 10) (by decide))

/-! ### Stable-sort lemmas -/

theorem filter_orderedInsert {α : Type} (key : α → ℕ) (k : ℕ) (a : α) (l : List α) :
    (List.orderedInsert (fun x y => key x ≤ key y) a l).filter (fun x => key x = k) =
      if key a = k then a :: l.filter (fun x => key x = k)
      else l.filter (fun x => key x = k) := by
  induction l with
  | nil => by_cases ha : key a = k <;> simp [List.orderedInsert, ha]
  | cons b t ih =>
    rw [List.orderedInsert]
    by_cases hab : key a ≤ key b
    · rw [if_pos hab]
      by_cases ha : key a = k <;> simp [List.filter_cons, ha]
    · rw [if_neg hab]
      by_cases hb : key b = k
      · have ha : ¬ key a = k := by omega
        simp [List.filter_cons, hb, ha, ih]
      · by_cases ha : key a = k <;> simp [List.filter_cons, hb, ha, ih]

theorem filter_insertionSort {α : Type} (key : α → ℕ) (k : ℕ) (l : List α) :
    (List.insertionSort (fun x y => key x ≤ key y) l).filter (fun x => key x = k) =
      l.filter (fun x => key x = k) := by
  induction l with
  | nil => rfl
  | cons a t ih =>
    rw [List.insertionSort, filter_orderedInsert]
    by_cases ha : key a = k <;> simp [List.filter_cons, ha, ih]

theorem sorted_sortIssues (l : List Issue) :
    List.Sorted (fun a b => severityRank a ≤ severityRank b) (sortIssues l) := by
  haveI : IsTotal Issue (fun a b => severityRank a ≤ severityRank b) :=
    ⟨fun a b => Nat.le_total _ _⟩
  haveI : IsTrans Issue (fun a b => severityRank a ≤ severityRank b) :=
    ⟨fun _ _ _ => Nat.le_trans⟩
  exact List.sorted_insertionSort _ l

theorem sorted_sortActions (l : List RecommendedAction) :
    List.Sorted (fun a b => priorityRank a ≤ priorityRank b) (sortActions l) := by
  haveI : IsTotal RecommendedAction (fun a b => priorityRank a ≤ priorityRank b) :=
    ⟨fun a b => Nat.le_total _ _⟩
  haveI : IsTrans RecommendedAction (fun a b => priorityRank a ≤ priorityRank b) :=
    ⟨fun _ _ _ => Nat.le_trans⟩
  exact List.sorted_insertionSort _ l

/-- C3: the two sorts of the aggregator are stable sorts by rank.  Sorting the
concatenated issue list yields a list sorted by severity rank that is a
permutation of the input in which, for every rank, the subsequence of
findings of that rank is exactly the subsequence of the input of that rank
(stability: equal-rank findings keep their detector-emission order); the
action sort behaves analogously for priority rank; an unrecognized
severity/priority token ranks 3 (sorting last) instead of erroring; and the
live pipeline applies exactly these sorts to the concatenation of the four
outputs of the four detectors in the fixed order products, campaigns, search terms,
policy. -/
theorem aggregator_stable_sort :
    (∀ l : List Issue,
      List.Sorted (fun a b => severityRank a ≤ severityRank b) (sortIssues l) ∧
      List.Perm (sortIssues l) l ∧
      ∀ k : ℕ, (sortIssues l).filter (fun x => severityRank x = k) =
        l.filter (fun x => severityRank x = k)) ∧
    (∀ l : List RecommendedAction,
      List.Sorted (fun a b => priorityRank a ≤ priorityRank b) (sortActions l) ∧
      List.Perm (sortActions l) l ∧
      ∀ k : ℕ, (sortActions l).filter (fun x => priorityRank x = k) =
        l.filter (fun x => priorityRank x = k)) ∧
    (∀ i : Issue, i.severity ≠ "high" → i.severity ≠ "medium" → i.severity ≠ "low" →
      severityRank i = 3) ∧
    (∀ a : RecommendedAction, a.priority ≠ "high" → a.priority ≠ "medium" →
      a.priority ≠ "low" → priorityRank a = 3) ∧
    (∀ (acct : AccountKpis) (cks : List CampaignKPI) (ts : List SearchTermData)
        (ps : List Record) (ds : List DisapprovedProduct)
        (out : List Issue × List RecommendedAction),
      analyze_policy_issues ps = .ok out →
      livePipeline acct cks ts ps ds = .ok
        (sortIssues ((analyze_disapproved_products ds).1 ++ (analyze_campaigns cks acct).1 ++
          (analyze_search_terms ts).1 ++ out.1),
         sortActions ((analyze_disapproved_products ds).2 ++ (analyze_campaigns cks acct).2 ++
          (analyze_search_terms ts).2 ++ out.2))) := by
  refine ⟨fun l => ⟨sorted_sortIssues l, List.perm_insertionSort _ l,
      fun k => filter_insertionSort severityRank k l⟩,
    fun l => ⟨sorted_sortActions l, List.perm_insertionSort _ l,
      fun k => filter_insertionSort priorityRank k l⟩,
    fun i h1 h2 h3 => by simp [severityRank, h1, h2, h3],
    fun a h1 h2 h3 => by simp [priorityRank, h1, h2, h3],
    fun acct cks ts ps ds out h => ?_⟩
  simp [livePipeline, h, except_bind_ok, except_pure_eq]

/-- An issue with a severity token outside the enumeration. -/
def oddSeverityIssue : Issue :=
  { type := "disapproved_product", severity := "critical", description := "x", metadata := [] }

theorem aggregator_stable_sort_witness :
    severityRank oddSeverityIssue = 3 ∧
    List.Perm (sortIssues [oddSeverityIssue]) [oddSeverityIssue] :=
  ⟨aggregator_stable_sort.2.2.1 oddSeverityIssue (by decide) (by decide) (by decide),
   (aggregator_stable_sort.1 [oddSeverityIssue]).2.1⟩

/-- C9: the pipeline and the fallback generator are deterministic — equal
inputs give equal outputs (the embedding is a pure function of the provider
data; the `import random` of the source is unused and nothing reads the clock) —
and re-sorting the aggregator's own output changes nothing. -/
theorem pipeline_deterministic :
    (∀ (a₁ a₂ : AccountKpis) (c₁ c₂ : List CampaignKPI) (t₁ t₂ : List SearchTermData)
        (p₁ p₂ : List Record) (d₁ d₂ : List DisapprovedProduct),
      a₁ = a₂ → c₁ = c₂ → t₁ = t₂ → p₁ = p₂ → d₁ = d₂ →
      livePipeline a₁ c₁ t₁ p₁ d₁ = livePipeline a₂ c₂ t₂ p₂ d₂) ∧
    (∀ cu₁ cu₂ dr₁ dr₂ : String, cu₁ = cu₂ → dr₁ = dr₂ →
      build_demo_snapshot cu₁ dr₁ = build_demo_snapshot cu₂ dr₂) ∧
    (∀ l : List Issue, sortIssues (sortIssues l) = sortIssues l) ∧
    (∀ l : List RecommendedAction, sortActions (sortActions l) = sortActions l) := by
  refine ⟨?_, ?_, fun l => (sorted_sortIssues l).insertionSort_eq,
    fun l => (sorted_sortActions l).insertionSort_eq⟩
  · rintro a₁ _ c₁ _ t₁ _ p₁ _ d₁ _ rfl rfl rfl rfl rfl
    rfl
  · rintro cu₁ _ dr₁ _ rfl rfl
    rfl

theorem pipeline_deterministic_witness :
    livePipeline accountWithAvg [] [] [] [] = livePipeline accountWithAvg [] [] [] [] ∧
    build_demo_snapshot "123" "7d" = build_demo_snapshot "123" "7d" :=
  ⟨pipeline_deterministic.1 accountWithAvg accountWithAvg [] [] [] [] [] [] [] []
      rfl rfl rfl rfl rfl,
   pipeline_deterministic.2.1 "123" "123" "7d" "7d" rfl rfl⟩

/-- C1: with credentials configured, if any provider call or any
detector/aggregation step inside the protected region fails, `build_snapshot`
returns the static fallback report; and on every input `build_snapshot`
returns a value — either the fallback report or a successfully built live
report — so it never propagates an error to its caller. -/
theorem build_snapshot_error_fallback (settings : Settings) (env : Env) (c d : String) :
    (strTruthy settings.google_ads_developer_token = true →
      (∃ e, liveSnapshot env c d = .error e) →
      build_snapshot settings env c d = build_demo_snapshot c d) ∧
    (build_snapshot settings env c d = build_demo_snapshot c d ∨
      ∃ resp, liveSnapshot env c d = .ok resp ∧ build_snapshot settings env c d = resp) := by
  constructor
  · rintro ht ⟨e, he⟩
    simp [build_snapshot, ht, he]
  · by_cases ht : strTruthy settings.google_ads_developer_token = false
    · left
      simp [build_snapshot, ht]
    · cases hr : liveSnapshot env c d with
      | ok resp => exact Or.inr ⟨resp, rfl, by simp [build_snapshot, ht, hr]⟩
      | error e =>
        left
        simp [build_snapshot, ht, hr]

/-- An environment whose search-terms provider fails while every other
provider succeeds (the end-to-end failure scenario of the spec). -/
def failingSearchEnv : Env :=
  { ads_get_account_kpis := fun _ _ => .ok accountWithAvg
    ads_get_campaign_kpis := fun _ _ => .ok []
    ads_get_search_terms := fun _ _ _ => .error (.providerError "search terms unavailable")
    ads_get_policy_issues := fun _ => .ok []
    mc_get_disapproved_products := .ok [] }

theorem build_snapshot_error_fallback_witness :
    build_snapshot ⟨some "token"⟩ failingSearchEnv "123" "7d" =
      build_demo_snapshot "123" "7d" :=
  (build_snapshot_error_fallback ⟨some "token"⟩ failingSearchEnv "123" "7d").1
    (by decide) ⟨.providerError "search terms unavailable", rfl⟩

end AdsSnapshot
